import Mathlib

/-!
Verification of the vs-deband repository's debanding pipeline functions
(src/debandshit/debanders.py and src/vsdeband/funcs.py) against its
natural-language specification.

The pipelines only build a processing graph over an external video engine:
every filter invocation produces a new graph node referencing its inputs.
We embed clips as such graph nodes, carrying the format metadata (bit depth,
subsampling, number of planes, sample type, color range) that the pipeline
code inspects, and embed each pipeline function as a Lean function from the
input clip (plus the parameters of its Python signature) to
`Except String Clip`: raising is `Except.error`, returning a clip is
`Except.ok`.

Machine integers of the source are embedded as `Int`/`Nat`; Python's true
division followed by `round`/`ceil` is embedded exactly over `ℚ` (the float
rounding error of the source is far below the distance of the exact values
to the nearest rounding boundary for all realistic inputs, so the exact
rational model agrees with the float computation).

Classes of this repository that are imported by the two source files but
whose defining modules are not part of src/ (`F3kdb`, `Placebo`,
`guided_filter`, `GuidedFilterMode`) are modelled from the spec; each such
definition carries a doc comment starting with `Modelled from the spec:`.
External collaborator libraries (vstools, vsrgtools, vskernels, vsmask,
vsexprtools) are embedded as graph-node constructors and small pure helpers
mirroring their documented behaviour.
-/

set_option autoImplicit false

/-- Sample type of a video format (`vs.INTEGER` / `vs.FLOAT`). -/
inductive SampleType where
  | integer
  | float
  deriving DecidableEq, Repr

/-- Color range of a clip (vstools `ColorRange`). -/
inductive ColorRange where
  | full
  | limited
  deriving DecidableEq, Repr

/-- `ColorRange.is_full` from vstools. -/
def ColorRange.is_full : ColorRange → Bool
  | .full => true
  | .limited => false

/-- The format metadata of a video node that the pipeline code inspects:
bit depth, chroma subsampling, plane count and sample type. -/
structure VideoFormat where
  bits_per_sample : Nat
  subsampling_w : Nat
  subsampling_h : Nat
  num_planes : Nat
  sample_type : SampleType
  deriving DecidableEq, Repr

/-- Modelled from the spec: the gradient/mode selector of the guided filter
(`GuidedFilterMode` from src/vsdeband/types.py, which is not under src/). -/
inductive GuidedFilterMode where
  | GRADIENT
  | ORIGINAL
  deriving DecidableEq, Repr

/-- The three vsrgtools `RemoveGrainMode` members used by `guided_deband`.
vsrgtools is an external library; the source refers to the modes by name
only, so we keep them symbolic. -/
inductive RgMode where
  | OPP_CLIP_AVG_FAST
  | SQUARE_BLUR
  | MIN_SHARP
  deriving DecidableEq, Repr

/-- A Python value of type `T | list[T] | None`, as accepted by the
threshold/grain parameters of the pipelines. -/
inductive PySeq (α : Type) where
  | null
  | one (a : α)
  | many (l : List α)
  deriving DecidableEq, Repr

/-- vstools `to_arr`: wrap a scalar into a one-element list, keep a list.
(`to_arr` is never reached with `None` in the embedded code paths.) -/
def to_arr {α : Type} : PySeq α → List α
  | .null => []
  | .one a => [a]
  | .many l => l

/-- Python truthiness of an `int | list | None` value: `None` and `0` are
falsy, a list is truthy iff nonempty. -/
def PySeq.truthy {α : Type} [Zero α] [DecidableEq α] : PySeq α → Bool
  | .null => false
  | .one a => decide (a ≠ 0)
  | .many l => !l.isEmpty

/-- vstools `normalize_seq` on a plain list: pad with the last element (or
truncate) to the requested length. -/
def normalize_list {α : Type} [Inhabited α] (l : List α) (n : Nat) : List α :=
  (List.range n).map fun i => l.getD i (l.getLast?.getD default)

/-- vstools `normalize_seq`: normalize a scalar-or-list value to a list of
exactly `n` entries (scalars are repeated, short lists padded by their last
element). -/
def normalize_seq {α : Type} [Inhabited α] (s : PySeq α) (n : Nat) : List α :=
  normalize_list (to_arr s) n

/-- `ceil(a / b)` on naturals, as computed by `math.ceil` over Python's true
division (specialized below to the `ceil(clip.height / 540)` of the source). -/
def pyCeilDiv (a b : Nat) : Nat :=
  (a + b - 1) / b

/-- Python's built-in `round`: round half to even (banker's rounding),
embedded exactly over `ℚ`. -/
def pyRound (q : ℚ) : ℤ :=
  let f := ⌊q⌋
  if q - f < 1/2 then f
  else if 1/2 < q - f then f + 1
  else if f % 2 = 0 then f else f + 1

/-- The video processing graph. Each constructor is one filter invocation of
the source (an external plugin call or Debander method call); the first clip
argument of a node determines the metadata of its output, except for
`source` (which declares it) and `resizeNode` (which overrides the
dimensions). -/
inductive Clip where
  /-- An input clip with a declared (or variable, `none`) format. -/
  | source (fmt : Option VideoFormat) (width height : Nat) (range : ColorRange)
  /-- vstools `depth`: bit-depth conversion. -/
  | depthConv (bits : Nat) (c : Clip)
  /-- `F3kdb().deband`: one f3kdb debanding stage (radius, per-plane
  thresholds, per-plane grain). -/
  | f3kdbDeband (radius : Int) (thr : List Int) (grains : List Int) (c : Clip)
  /-- `F3kdb().grain`: grain synthesis only. -/
  | f3kdbGrain (grains : List Int) (c : Clip)
  /-- `Placebo().deband`: one placebo debanding stage. -/
  | placeboDeband (radius : ℚ) (thr : List ℚ) (iterations : Int) (grains : List ℚ) (c : Clip)
  /-- vsrgtools `limit_filter(flt, src, thr=..., elast=..., bright_thr=...)`. -/
  | limitFilter2 (flt src : Clip) (thr : List ℚ) (elast : Option ℚ) (bright_thr : Option Int)
  /-- vsrgtools `limit_filter(flt, src, ref, thr=..., elast=..., bright_thr=...)`. -/
  | limitFilter3 (flt src ref : Clip) (thr : List ℚ) (elast : Option ℚ) (bright_thr : Option Int)
  /-- `core.std.MakeDiff(a, b)`. -/
  | makeDiff (a b : Clip)
  /-- `core.std.MergeDiff(a, b)`. -/
  | mergeDiff (a b : Clip)
  /-- `core.std.Convolution(clip, matrix, planes=...)`. -/
  | convolution (matrix : List Int) (planes : Option (List Nat)) (c : Clip)
  /-- vsrgtools `blur(clip, radius)` (the default prefilter of `pfdeband`). -/
  | blurNode (radius : Int) (c : Clip)
  /-- A resampling call (`core.resize.Spline64` / a vskernels Scaler). -/
  | resizeNode (width height : Nat) (c : Clip)
  /-- The guided filter, with resolved radius, strength and mode. -/
  | guided (radius : Int) (strength : ℚ) (mode : GuidedFilterMode) (planes : List Nat) (c : Clip)
  /-- vsexprtools `norm_expr([a, b], expr, planes)` (used with two inputs). -/
  | exprNode (a b : Clip) (expr : String) (planes : List Nat)
  /-- vsmask `expand(clip, r)`. -/
  | expandN (r : Int) (c : Clip)
  /-- vsmask `inpand(clip, r)`. -/
  | inpandN (r : Int) (c : Clip)
  /-- `std.Binarize(threshold=thr, planes=planes)`. -/
  | binarizeN (thr : List ℚ) (planes : List Nat) (c : Clip)
  /-- vsrgtools `removegrain(clip, mode)`. -/
  | removegrainN (mode : RgMode) (c : Clip)
  /-- `std.MaskedMerge(a, b, mask, planes=planes)`. -/
  | maskedMerge (a b mask : Clip) (planes : List Nat)
  deriving DecidableEq, Repr

namespace Clip

/-- The format a node reports: inherited from the primary input, with
`depthConv` overriding the bit depth. -/
def format : Clip → Option VideoFormat
  | source f _ _ _ => f
  | depthConv b c => (format c).map fun f => { f with bits_per_sample := b }
  | f3kdbDeband _ _ _ c => format c
  | f3kdbGrain _ c => format c
  | placeboDeband _ _ _ _ c => format c
  | limitFilter2 flt _ _ _ _ => format flt
  | limitFilter3 flt _ _ _ _ _ => format flt
  | makeDiff a _ => format a
  | mergeDiff a _ => format a
  | convolution _ _ c => format c
  | blurNode _ c => format c
  | resizeNode _ _ c => format c
  | guided _ _ _ _ c => format c
  | exprNode a _ _ _ => format a
  | expandN _ c => format c
  | inpandN _ c => format c
  | binarizeN _ _ c => format c
  | removegrainN _ c => format c
  | maskedMerge a _ _ _ => format a

/-- The frame width a node reports. -/
def width : Clip → Nat
  | source _ w _ _ => w
  | depthConv _ c => width c
  | f3kdbDeband _ _ _ c => width c
  | f3kdbGrain _ c => width c
  | placeboDeband _ _ _ _ c => width c
  | limitFilter2 flt _ _ _ _ => width flt
  | limitFilter3 flt _ _ _ _ _ => width flt
  | makeDiff a _ => width a
  | mergeDiff a _ => width a
  | convolution _ _ c => width c
  | blurNode _ c => width c
  | resizeNode w _ _ => w
  | guided _ _ _ _ c => width c
  | exprNode a _ _ _ => width a
  | expandN _ c => width c
  | inpandN _ c => width c
  | binarizeN _ _ c => width c
  | removegrainN _ c => width c
  | maskedMerge a _ _ _ => width a

/-- The frame height a node reports. -/
def height : Clip → Nat
  | source _ _ h _ => h
  | depthConv _ c => height c
  | f3kdbDeband _ _ _ c => height c
  | f3kdbGrain _ c => height c
  | placeboDeband _ _ _ _ c => height c
  | limitFilter2 flt _ _ _ _ => height flt
  | limitFilter3 flt _ _ _ _ _ => height flt
  | makeDiff a _ => height a
  | mergeDiff a _ => height a
  | convolution _ _ c => height c
  | blurNode _ c => height c
  | resizeNode _ h _ => h
  | guided _ _ _ _ c => height c
  | exprNode a _ _ _ => height a
  | expandN _ c => height c
  | inpandN _ c => height c
  | binarizeN _ _ c => height c
  | removegrainN _ c => height c
  | maskedMerge a _ _ _ => height a

/-- The color range a node reports (vstools `ColorRange.from_video`). -/
def range : Clip → ColorRange
  | source _ _ _ r => r
  | depthConv _ c => range c
  | f3kdbDeband _ _ _ c => range c
  | f3kdbGrain _ c => range c
  | placeboDeband _ _ _ _ c => range c
  | limitFilter2 flt _ _ _ _ => range flt
  | limitFilter3 flt _ _ _ _ _ => range flt
  | makeDiff a _ => range a
  | mergeDiff a _ => range a
  | convolution _ _ c => range c
  | blurNode _ c => range c
  | resizeNode _ _ c => range c
  | guided _ _ _ _ c => range c
  | exprNode a _ _ _ => range a
  | expandN _ c => range c
  | inpandN _ c => range c
  | binarizeN _ _ c => range c
  | removegrainN _ c => range c
  | maskedMerge a _ _ _ => range a

/-- The bit depth a node reports (`clip.format.bits_per_sample`). -/
def bits (c : Clip) : Option Nat :=
  (format c).map VideoFormat.bits_per_sample

/-- Reported frame dimensions of a node, `(width, height)`. -/
def dims (c : Clip) : Nat × Nat :=
  (width c, height c)

end Clip

/-- vstools `depth(clip, bits)`: returns the clip unchanged when it already
has the requested bit depth, otherwise adds a conversion node. -/
def depth (c : Clip) (b : Nat) : Clip :=
  if c.bits = some b then c else Clip.depthConv b c

/-- vstools `expect_bits(clip, 16)`: the clip converted to the expected
depth, paired with the original bit depth. Only reached on clips whose
format was already checked to be concrete. -/
def expect_bits (c : Clip) (expected : Nat) : Clip × Nat :=
  (depth c expected, (c.bits).getD 0)

/-- vstools `check_variable(clip, func)`: error on a variable-format clip,
succeed otherwise. -/
def check_variable (c : Clip) (func : String) : Except String Unit :=
  match c.format with
  | none => .error (func ++ ": Variable-format clips not supported")
  | some _ => .ok ()

/-- vstools `normalize_planes(clip, None)`/explicit planes: `None` selects
all planes of the format. -/
def normalize_planes (fmt : VideoFormat) (planes : Option (List Nat)) : List Nat :=
  planes.getD (List.range fmt.num_planes)

/-- vsmask `expand(clip, r)`. -/
def expand (c : Clip) (r : Int) : Clip := .expandN r c

/-- vsmask `inpand(clip, r)`. -/
def inpand (c : Clip) (r : Int) : Clip := .inpandN r c

/-- vsrgtools `removegrain(clip, mode)`. -/
def removegrain (c : Clip) (mode : RgMode) : Clip := .removegrainN mode c

/-- Largest element of a list of thresholds (Python `max`, guarded by list
truthiness at every use site). -/
def listMax (l : List ℚ) : ℚ :=
  l.foldl max (l.headD 0)

/-- Python `int()` truncation of a rational toward zero. -/
def pyInt (q : ℚ) : Int :=
  q.num.tdiv q.den

/-- Modelled from the spec: the f3kdb-backed `Debander` (class `F3kdb` of
src/debandshit/f3kdb.py and src/vsdeband/f3kdb.py, which are not under
src/). It "holds default parameters and exposes the two-operation
capability": a banding-detection radius, per-plane thresholds (luma and two
chroma, as the `thy`/`thcb`/`thcr` attributes accessed by `f3kbilateral`)
and per-plane grain, plus the sample-mode/neo selectors of the `dumb3kdb`
signature. -/
structure F3kdb where
  radius : Int
  thy : Int
  thcb : Int
  thcr : Int
  grains : List Int
  sample_mode : Int
  use_neo : Bool
  deriving DecidableEq, Repr

/-- Modelled from the spec: the `F3kdb` constructor, normalizing the
scalar-or-list threshold and grain parameters per plane. -/
def mkF3kdb (radius : Int) (threshold : PySeq Int) (grain : PySeq Int)
    (sample_mode : Int) (use_neo : Bool) : F3kdb :=
  let t := normalize_seq threshold 3
  { radius := radius
    thy := t.getD 0 0
    thcb := t.getD 1 0
    thcr := t.getD 2 0
    grains := normalize_seq grain 3
    sample_mode := sample_mode
    use_neo := use_neo }

/-- Modelled from the spec: `F3kdb.deband(clip)`. Per the spec, a pipeline
delegating to a Debander "requires a frame sequence with a concrete
(non-variable) format; violating this fails with an immediate format error
before any filter is invoked"; on a concrete-format clip it emits one f3kdb
debanding node with the stored parameters. -/
def F3kdb.deband (d : F3kdb) (c : Clip) : Except String Clip :=
  match c.format with
  | none => .error "F3kdb.deband: Variable-format clips not supported"
  | some _ => .ok (.f3kdbDeband d.radius [d.thy, d.thcb, d.thcr] d.grains c)

/-- Modelled from the spec: `F3kdb.grain(clip)`, grain synthesis only
(reached only after the pipeline's own format check). -/
def F3kdb.grainClip (d : F3kdb) (c : Clip) : Clip :=
  .f3kdbGrain d.grains c

/-- Modelled from the spec: `Debander.deband(clip, radius=..., thr=...,
grains=...)`, the per-call-parameter form used by the vsdeband pipelines.
Same contract as `F3kdb.deband`, with the call-site parameters. -/
def debanderDeband (c : Clip) (radius : Int) (thr : PySeq Int)
    (grains : PySeq Int) : Except String Clip :=
  match c.format with
  | none => .error "F3kdb.deband: Variable-format clips not supported"
  | some _ =>
    .ok (.f3kdbDeband radius (normalize_seq thr 3) (normalize_seq grains 3) c)

/-- Modelled from the spec: the placebo-backed `Debander` (class `Placebo`
of src/debandshit/placebo.py, which is not under src/): radius, per-plane
thresholds, iteration count and grain. -/
structure Placebo where
  radius : ℚ
  thr : List ℚ
  iterations : Int
  grains : List ℚ
  deriving DecidableEq, Repr

/-- Modelled from the spec: the `Placebo` constructor. -/
def mkPlacebo (radius : ℚ) (threshold : PySeq ℚ) (iterations : Int)
    (grain : PySeq ℚ) : Placebo :=
  { radius := radius
    thr := to_arr threshold
    iterations := iterations
    grains := to_arr grain }

/-- Modelled from the spec: `Placebo.deband(clip)`, same contract as
`F3kdb.deband` (immediate format error on a variable-format clip, one
placebo debanding node otherwise). -/
def Placebo.deband (d : Placebo) (c : Clip) : Except String Clip :=
  match c.format with
  | none => .error "Placebo.deband: Variable-format clips not supported"
  | some _ => .ok (.placeboDeband d.radius d.thr d.iterations d.grains c)

/-- The rounded 4/3, 2/3, 1/3 stage radii of the three-stage bilateral
pipelines: `round(radius * 4 / 3), round(radius * 2 / 3), round(radius / 3)`
(src/debandshit/debanders.py lines 62-64, src/vsdeband/funcs.py line 65). -/
def stageRadii (radius : Int) : Int × Int × Int :=
  (pyRound ((radius : ℚ) * 4 / 3), pyRound ((radius : ℚ) * 2 / 3), pyRound ((radius : ℚ) / 3))

/-- Modelled from the spec: `guided_filter` (src/vsdeband/filters.py, not
under src/) applies the edge-aware guided filter, "parameterized by radius -
defaulted from frame height via `ceil(height/540)` - and a gradient/mode
selector" (spec section 4.5). The guidance argument is always `None` at the
call site in `guided_deband` and is omitted. -/
def guided_filter (clip : Clip) (radius : Option Int) (strength : ℚ)
    (mode : GuidedFilterMode) (planes : List Nat) : Clip :=
  .guided (radius.getD (pyCeilDiv clip.height 540 : Nat)) strength mode planes clip

namespace debandshit

/-- `dumb3kdb` (src/debandshit/debanders.py lines 20-24): a convenience
wrapper that only calls `F3kdb(...).deband(clip)`. -/
def dumb3kdb (clip : Clip) (radius : Int) (threshold : PySeq Int)
    (grain : PySeq Int) (sample_mode : Int) (use_neo : Bool) : Except String Clip :=
  (mkF3kdb radius threshold grain sample_mode use_neo).deband clip

/-- `f3kbilateral` (src/debandshit/debanders.py lines 27-86): three f3kdb
stages at the rounded 4/3, 2/3, 1/3 radii, the first one with its
`thy`/`thcb`/`thcr` attributes halved (minimum 1), combined with
`limit_filter(flt3, flt2, clip, thr=0.6, elast=3.0)`, optional grain, and a
16-bit round trip. The `f3kdb_args`/`limflt_args` kwargs dictionaries are
not modelled (their defaults are inlined). -/
def f3kbilateral (clip : Clip) (radius : Int) (threshold : PySeq Int)
    (grain : PySeq Int) : Except String Clip :=
  match clip.format with
  | none => .error "f3kbilateral: Variable-format clips not supported"
  | some f =>
    let bits := f.bits_per_sample
    let r := stageRadii radius
    let db1 := mkF3kdb r.1 threshold (.one 0) 2 false
    let db2 := mkF3kdb r.2.1 threshold (.one 0) 2 false
    let db3 := mkF3kdb r.2.2 threshold (.one 0) 2 false
    let db1 := { db1 with
                  thy := max 1 (Int.fdiv db1.thy 2)
                  thcb := max 1 (Int.fdiv db1.thcb 2)
                  thcr := max 1 (Int.fdiv db1.thcr 2) }
    let clip := depth clip 16
    match db1.deband clip with
    | .error e => .error e
    | .ok flt1 =>
      match db2.deband flt1 with
      | .error e => .error e
      | .ok flt2 =>
        match db3.deband flt2 with
        | .error e => .error e
        | .ok flt3 =>
          let limit := Clip.limitFilter3 flt3 flt2 clip [3/5] (some 3) none
          let grained :=
            if grain.truthy then (mkF3kdb 16 (.one 30) grain 2 false).grainClip limit
            else limit
          .ok (depth grained bits)

/-- `f3kpf` (src/debandshit/debanders.py lines 89-125): a fixed
gaussian-then-box convolution prefilter, `MakeDiff`, one f3kdb stage on the
blur, `limit_filter(deband, blur, thr=0.3, elast=2.5)`, and `MergeDiff`.
There is no bit-depth conversion and no retry of any call in this function;
the kwargs dictionaries are not modelled. -/
def f3kpf (clip : Clip) (radius : Int) (threshold : PySeq Int)
    (grain : PySeq Int) : Except String Clip :=
  match clip.format with
  | none => .error "f3kpf: Variable-format clips not supported"
  | some _ =>
    let blur := Clip.convolution [1, 1, 1, 1, 1, 1, 1, 1, 1] (some [0])
      (Clip.convolution [1, 2, 1, 2, 4, 2, 1, 2, 1] none clip)
    let diff := Clip.makeDiff clip blur
    match (mkF3kdb radius threshold grain 2 false).deband blur with
    | .error e => .error e
    | .ok deband =>
      let deband := Clip.limitFilter2 deband blur [3/10] (some (5/2)) none
      .ok (Clip.mergeDiff deband diff)

/-- `lfdeband` (src/debandshit/debanders.py lines 128-158): downscale to a
subsampling-congruent resolution with Spline64, deband there, take the
difference against the downscaled source, upscale the difference back and
merge onto the 16-bit clip, restoring the input depth at the end. -/
def lfdeband (clip : Clip) (radius : Int) (threshold : PySeq Int)
    (grain : PySeq Int) : Except String Clip :=
  match clip.format with
  | none => .error "lfdeband: Variable-format clips not supported"
  | some f =>
    let bits := f.bits_per_sample
    let wss : Int := 2 ^ f.subsampling_w
    let hss : Int := 2 ^ f.subsampling_h
    let w := clip.width
    let h := clip.height
    let dw := pyRound ((w : ℚ) / 2)
    let dh := pyRound ((h : ℚ) / 2)
    let clip := depth clip 16
    let dsc := Clip.resizeNode (dw - dw % wss).toNat (dh - dh % hss).toNat clip
    match (mkF3kdb radius threshold grain 2 false).deband dsc with
    | .error e => .error e
    | .ok d3kdb =>
      let ddif := Clip.makeDiff d3kdb dsc
      let dif := Clip.resizeNode w h ddif
      let out := Clip.mergeDiff clip dif
      .ok (depth out bits)

/-- `placebo_deband` (src/debandshit/debanders.py lines 161-164): a
convenience wrapper that only calls `Placebo(...).deband(clip)`. -/
def placebo_deband (clip : Clip) (radius : ℚ) (threshold : PySeq ℚ)
    (iterations : Int) (grain : PySeq ℚ) : Except String Clip :=
  (mkPlacebo radius threshold iterations grain).deband clip

end debandshit

/-- The default prefilter of `pfdeband`: `functools.partial(blur, radius=2)`
from vsrgtools; it accepts the plane-selection argument, so it succeeds
whether or not `planes` is passed. The `Bool` argument of an embedded
prefilter records whether the call passed `planes=0`. -/
def default_prefilter (c : Clip) (_withPlanes : Bool) : Except String Clip :=
  .ok (.blurNode 2 c)

namespace vsdeband

/-- `mdb_bilateral` (src/vsdeband/funcs.py lines 32-76): 16-bit promotion,
three Debander stages at the rounded 4/3, 2/3, 1/3 radii (the first with
per-plane thresholds `max(1, th // 2)`), `limit_filter(db3, db2, clip)`,
optional grain, and restoration of the input depth. -/
def mdb_bilateral (clip : Clip) (radius : Int) (thr : PySeq Int)
    (grains : PySeq Int) (lthr : List ℚ) (elast : ℚ)
    (bright_thr : Option Int) : Except String Clip :=
  match clip.format with
  | none => .error "mdb_bilateral: Variable-format clips not supported"
  | some _ =>
    let p := expect_bits clip 16
    let clip := p.1
    let bits := p.2
    let r := stageRadii radius
    match debanderDeband clip r.1
        (.many ((to_arr thr).map fun th => max 1 (Int.fdiv th 2))) (.one 0) with
    | .error e => .error e
    | .ok db1 =>
      match debanderDeband db1 r.2.1 thr (.one 0) with
      | .error e => .error e
      | .ok db2 =>
        match debanderDeband db2 r.2.2 thr (.one 0) with
        | .error e => .error e
        | .ok db3 =>
          let limit := Clip.limitFilter3 db3 db2 clip lthr (some elast) bright_thr
          let limit :=
            if grains.truthy then Clip.f3kdbGrain (normalize_seq grains 3) limit
            else limit
          .ok (depth limit bits)

/-- `pfdeband` (src/vsdeband/funcs.py lines 79-122): blur the clip with the
prefilter - first trying `planes=0` and, on any exception, retrying once
without it (lines 111-114) - take `MakeDiff(clip, blur)`, deband the blur,
`limit_filter(deband, blur)` and `MergeDiff` the detail back. The prefilter
is embedded as a function of the clip and of whether `planes=0` was passed;
there is no bit-depth conversion in this function. -/
def pfdeband (clip : Clip) (radius : Int) (thr : PySeq Int)
    (grains : PySeq Int) (lthr : List ℚ) (elast : ℚ) (bright_thr : Option Int)
    (prefilter : Clip → Bool → Except String Clip) : Except String Clip :=
  match clip.format with
  | none => .error "pfdeband: Variable-format clips not supported"
  | some _ =>
    let tried :=
      match prefilter clip true with
      | .error _ => prefilter clip false
      | .ok b => .ok b
    match tried with
    | .error e => .error e
    | .ok blur =>
      let diff := Clip.makeDiff clip blur
      match debanderDeband blur radius thr grains with
      | .error e => .error e
      | .ok deband =>
        let limit := Clip.limitFilter2 deband blur lthr (some elast) bright_thr
        .ok (Clip.mergeDiff limit diff)

/-- `lfdeband` (src/vsdeband/funcs.py lines 125-173). The source computes
the downscaled clip `dsc`, but line 165 then calls
`debander.deband(blur, ...)` where `blur` is the module-level function
imported from vsrgtools (not a clip; the local downscaled clip is `dsc`),
and line 169 calls `upscaler.Spline64(ddif, w, h)`, an attribute that does
not exist on a vskernels Scaler (`scale` does). Either call raises at
runtime, so the embedding errors at the deband stage; the `scaler` and
`upscaler` parameters (both defaulting to Spline64) are not modelled beyond
that point. -/
def lfdeband (clip : Clip) (radius : Int) (thr : PySeq Int)
    (grains : PySeq Int) (scale : Int) : Except String Clip :=
  match clip.format with
  | none => .error "lfdeband: Variable-format clips not supported"
  | some f =>
    let wss : Int := 2 ^ f.subsampling_w
    let hss : Int := 2 ^ f.subsampling_h
    let w := clip.width
    let h := clip.height
    let dw := pyRound ((w : ℚ) / (scale : ℚ))
    let dh := pyRound ((h : ℚ) / (scale : ℚ))
    let p := expect_bits clip 16
    let clip := p.1
    let _dsc := Clip.resizeNode (dw - dw % wss).toNat (dh - dh % hss).toNat clip
    .error "lfdeband: deband called on the vsrgtools blur function instead of a clip"

/-- `guided_deband` (src/vsdeband/funcs.py lines 176-214): guided filter,
optional limiting, optional range mask. `rad` and `radius` follow their
runtime types (`fallback` tests `is None`, so they are embedded as
`Option Int`; the declared default of `rad` is the integer 0). When
`bin_thr` is passed as `None` on an integer-format clip, line 194 evaluates
`scale_value(0.005859375, 32, scale_value)` - the third argument is the
`scale_value` function itself rather than an output depth, which raises a
TypeError at runtime. The `**kwargs` forwarding is not modelled. -/
def guided_deband (clip : Clip) (radius : Option Int) (strength : ℚ)
    (thr : PySeq ℚ) (mode : GuidedFilterMode) (rad : Option Int)
    (bin_thr : PySeq ℚ) (planes : Option (List Nat))
    (range_in : Option ColorRange) : Except String Clip :=
  match clip.format with
  | none => .error "guided_deband: Variable-format clips not supported"
  | some fmt =>
    let planes := normalize_planes fmt planes
    let range_in := range_in.getD clip.range
    let rad := rad.getD (pyCeilDiv clip.height 540 : Nat)
    let binRes : Except String (PySeq ℚ) :=
      match bin_thr with
      | .null =>
        if fmt.sample_type = SampleType.float then
          .ok (if range_in.is_full then .one (3/2/255) else .many [3/2/219, 3/2/224])
        else
          .error "guided_deband: scale_value received the scale_value function as its output depth"
      | s => .ok s
    match binRes with
    | .error e => .error e
    | .ok bin_thr =>
      let bin_thr := normalize_seq bin_thr fmt.num_planes
      let deband := guided_filter clip radius strength mode planes
      let deband :=
        if thr.truthy then
          Clip.limitFilter2 deband clip (((to_arr thr).map pyInt).map fun z => (z : ℚ)) none none
        else deband
      let deband :=
        if rad ≠ 0 then
          let rmask := Clip.exprNode (expand clip rad) (inpand clip rad) "x y -" planes
          let rmask :=
            if !bin_thr.isEmpty ∧ listMax bin_thr > 0 then
              Clip.binarizeN bin_thr planes rmask
            else rmask
          let rmask := removegrain rmask .OPP_CLIP_AVG_FAST
          let rmask := removegrain rmask .SQUARE_BLUR
          let rmask := removegrain rmask .MIN_SHARP
          Clip.maskedMerge deband clip rmask planes
        else deband
      .ok deband

end vsdeband

/-- Bit depths of the inputs fed to each debanding stage occurring in a
graph (every `f3kdbDeband`/`placeboDeband` node reachable from the root). -/
def debandInputBits : Clip → List (Option Nat)
  | .source _ _ _ _ => []
  | .depthConv _ c => debandInputBits c
  | .f3kdbDeband _ _ _ c => debandInputBits c ++ [c.bits]
  | .f3kdbGrain _ c => debandInputBits c
  | .placeboDeband _ _ _ _ c => debandInputBits c ++ [c.bits]
  | .limitFilter2 a b _ _ _ => debandInputBits a ++ debandInputBits b
  | .limitFilter3 a b r _ _ _ => debandInputBits a ++ debandInputBits b ++ debandInputBits r
  | .makeDiff a b => debandInputBits a ++ debandInputBits b
  | .mergeDiff a b => debandInputBits a ++ debandInputBits b
  | .convolution _ _ c => debandInputBits c
  | .blurNode _ c => debandInputBits c
  | .resizeNode _ _ c => debandInputBits c
  | .guided _ _ _ _ c => debandInputBits c
  | .exprNode a b _ _ => debandInputBits a ++ debandInputBits b
  | .expandN _ c => debandInputBits c
  | .inpandN _ c => debandInputBits c
  | .binarizeN _ _ c => debandInputBits c
  | .removegrainN _ c => debandInputBits c
  | .maskedMerge a b m _ => debandInputBits a ++ debandInputBits b ++ debandInputBits m

/-- Whether every debanding stage of a graph receives a 16-bit clip. -/
def allBits16 (c : Clip) : Bool :=
  (debandInputBits c).all fun b => b == some 16

/-- The `(radius, thresholds)` of the f3kdb debanding stages along the main
chain of a pipeline result, in application order (stage 1 first). The walk
follows the filtered branch of the wrapper nodes the three-stage pipelines
place above their stages, so each stage is listed exactly once. -/
def stageThrs : Clip → List (Int × List Int)
  | .depthConv _ c => stageThrs c
  | .f3kdbDeband r t _ c => stageThrs c ++ [(r, t)]
  | .f3kdbGrain _ c => stageThrs c
  | .limitFilter2 flt _ _ _ _ => stageThrs flt
  | .limitFilter3 flt _ _ _ _ _ => stageThrs flt
  | .mergeDiff a _ => stageThrs a
  | _ => []

/-- The resolved radii of the guided-filter nodes of a graph. -/
def guidedRadii : Clip → List Int
  | .source _ _ _ _ => []
  | .depthConv _ c => guidedRadii c
  | .f3kdbDeband _ _ _ c => guidedRadii c
  | .f3kdbGrain _ c => guidedRadii c
  | .placeboDeband _ _ _ _ c => guidedRadii c
  | .limitFilter2 a b _ _ _ => guidedRadii a ++ guidedRadii b
  | .limitFilter3 a b r _ _ _ => guidedRadii a ++ guidedRadii b ++ guidedRadii r
  | .makeDiff a b => guidedRadii a ++ guidedRadii b
  | .mergeDiff a b => guidedRadii a ++ guidedRadii b
  | .convolution _ _ c => guidedRadii c
  | .blurNode _ c => guidedRadii c
  | .resizeNode _ _ c => guidedRadii c
  | .guided r _ _ _ c => r :: guidedRadii c
  | .exprNode a b _ _ => guidedRadii a ++ guidedRadii b
  | .expandN _ c => guidedRadii c
  | .inpandN _ c => guidedRadii c
  | .binarizeN _ _ c => guidedRadii c
  | .removegrainN _ c => guidedRadii c
  | .maskedMerge a b m _ => guidedRadii a ++ guidedRadii b ++ guidedRadii m

/-- Whether a graph contains a `std.Binarize` node. -/
def hasBinarize : Clip → Bool
  | .source _ _ _ _ => false
  | .depthConv _ c => hasBinarize c
  | .f3kdbDeband _ _ _ c => hasBinarize c
  | .f3kdbGrain _ c => hasBinarize c
  | .placeboDeband _ _ _ _ c => hasBinarize c
  | .limitFilter2 a b _ _ _ => hasBinarize a || hasBinarize b
  | .limitFilter3 a b r _ _ _ => hasBinarize a || hasBinarize b || hasBinarize r
  | .makeDiff a b => hasBinarize a || hasBinarize b
  | .mergeDiff a b => hasBinarize a || hasBinarize b
  | .convolution _ _ c => hasBinarize c
  | .blurNode _ c => hasBinarize c
  | .resizeNode _ _ c => hasBinarize c
  | .guided _ _ _ _ c => hasBinarize c
  | .exprNode a b _ _ => hasBinarize a || hasBinarize b
  | .expandN _ c => hasBinarize c
  | .inpandN _ c => hasBinarize c
  | .binarizeN _ _ _ => true
  | .removegrainN _ c => hasBinarize c
  | .maskedMerge a b m _ => hasBinarize a || hasBinarize b || hasBinarize m

/-- A 1920x1080 8-bit 4:2:0 integer-format limited-range input clip. -/
def fmt420p8 : VideoFormat :=
  { bits_per_sample := 8
    subsampling_w := 1
    subsampling_h := 1
    num_planes := 3
    sample_type := .integer }

/-- Concrete 8-bit test clip. -/
def clip8 : Clip :=
  .source (some fmt420p8) 1920 1080 .limited

/-- A 1920x1080 32-bit float 4:4:4 full-range format. -/
def fmt444ps : VideoFormat :=
  { bits_per_sample := 32
    subsampling_w := 0
    subsampling_h := 0
    num_planes := 3
    sample_type := .float }

/-- Concrete float-format test clip. -/
def clipF32 : Clip :=
  .source (some fmt444ps) 1920 1080 .full

/-- A clip with variable (unknown) format. -/
def clipVar : Clip :=
  .source none 640 480 .limited

/-- `pyRound` never strays more than one above the floor. -/
theorem pyRound_bounds (q : ℚ) : ⌊q⌋ ≤ pyRound q ∧ pyRound q ≤ ⌊q⌋ + 1 := by
  simp only [pyRound]
  split_ifs <;> omega

/-- Python `round` (half to even) is monotone. -/
theorem pyRound_mono {p q : ℚ} (h : p ≤ q) : pyRound p ≤ pyRound q := by
  rcases lt_or_eq_of_le (Int.floor_le_floor h) with hlt | heq
  · have h1 := (pyRound_bounds p).2
    have h2 := (pyRound_bounds q).1
    omega
  · simp only [pyRound, ← heq]
    have hpq : p - ⌊p⌋ ≤ q - ⌊p⌋ := by linarith
    split_ifs <;> first | omega | linarith

/-- Normalizing a mapped scalar-or-list commutes with mapping, for nonempty
lists: per-plane normalization of already-halved thresholds is the same as
halving the per-plane normalized thresholds. -/
theorem normalize_list_map {α β : Type} [Inhabited α] [Inhabited β] (g : α → β)
    (l : List α) (hl : l ≠ []) (n : Nat) :
    normalize_list (l.map g) n = (normalize_list l n).map g := by
  obtain ⟨a, ha⟩ := Option.isSome_iff_exists.mp (List.getLast?_isSome.mpr hl)
  unfold normalize_list
  rw [List.map_map]
  apply List.map_congr_left
  intro i _
  simp only [Function.comp_apply]
  rw [List.getD_eq_getElem?_getD, List.getD_eq_getElem?_getD, List.getElem?_map,
    List.getLast?_map, ha]
  cases hx : l[i]? with
  | none => simp
  | some b => simp

/-- C9: for every clip and identical parameters, `dumb3kdb` returns exactly
`F3kdb(...).deband(clip)` and `placebo_deband` returns exactly
`Placebo(...).deband(clip)`, with no processing before or after the
delegated call. -/
theorem dumb3kdb_placebo_passthrough (c : Clip) (radius : Int)
    (threshold grain : PySeq Int) (sample_mode : Int) (use_neo : Bool)
    (pradius : ℚ) (pthreshold : PySeq ℚ) (iterations : Int) (pgrain : PySeq ℚ) :
    debandshit.dumb3kdb c radius threshold grain sample_mode use_neo
        = (mkF3kdb radius threshold grain sample_mode use_neo).deband c
      ∧ debandshit.placebo_deband c pradius pthreshold iterations pgrain
        = (mkPlacebo pradius pthreshold iterations pgrain).deband c :=
  ⟨rfl, rfl⟩

/-- C2 (code bug): on a concrete 1920x1080 8-bit clip, `vsdeband.lfdeband`
raises at its deband stage (the source passes the vsrgtools `blur` function
instead of the downscaled clip, then would call the nonexistent
`upscaler.Spline64`), while `debandshit.lfdeband` - the function it was
ported from - performs the claimed downscale/deband/diff/upscale/merge and
returns a clip whose dimensions equal the input's exactly. -/
theorem lfdeband_funcs_error_eval :
    vsdeband.lfdeband clip8 30 (.one 80) (.one 0) 2
        = .error "lfdeband: deband called on the vsrgtools blur function instead of a clip"
      ∧ (debandshit.lfdeband clip8 30 (.one 80) (.one 0)).map Clip.dims = .ok (1920, 1080)
      ∧ (debandshit.lfdeband clip8 30 (.one 80) (.one 0)).map Clip.bits = .ok (some 8) :=
  ⟨rfl, rfl, rfl⟩

/-- C1 counterexample: `f3kpf` on an 8-bit clip performs no promotion to the
16-bit working precision - its single debanding stage receives the blurred
clip at the input's own 8-bit depth. -/
theorem f3kpf_runs_at_input_depth :
    (debandshit.f3kpf clip8 16 (.one 30) (.one 0)).map allBits16 = .ok false
      ∧ (debandshit.f3kpf clip8 16 (.one 30) (.one 0)).map debandInputBits = .ok [some 8] :=
  ⟨rfl, rfl⟩

/-- C6 counterexample: with a positive mask radius and the binarize
threshold left at its declared default (`bin_thr = 0`, not `None`), the
range mask of `guided_deband` is never binarized and no threshold is
computed from the bit depth or color range. -/
theorem guided_default_binthr_no_binarize :
    (vsdeband.guided_deband clip8 none (3/10) .null .GRADIENT (some 1) (.one 0) none none).map
        hasBinarize = .ok false :=
  rfl

/-- C7: for every positive base radius, the three stage radii
`round(radius * 4 / 3), round(radius * 2 / 3), round(radius / 3)` used by
`f3kbilateral` and `mdb_bilateral` are non-increasing. -/
theorem stage_radii_ordered (radius : Int) (h : 0 < radius) :
    (stageRadii radius).2.2 ≤ (stageRadii radius).2.1
      ∧ (stageRadii radius).2.1 ≤ (stageRadii radius).1 := by
  have h0 : (0 : ℚ) ≤ (radius : ℚ) := by exact_mod_cast h.le
  constructor
  · exact pyRound_mono (by linarith)
  · exact pyRound_mono (by linarith)

/-- Witness for C7 at the default radius 16: the stage radii are 21, 11, 5. -/
theorem stage_radii_ordered_witness :
    0 < (16 : Int) ∧ stageRadii 16 = (21, 11, 5)
      ∧ ((stageRadii 16).2.2 ≤ (stageRadii 16).2.1
          ∧ (stageRadii 16).2.1 ≤ (stageRadii 16).1) :=
  ⟨by decide, by norm_num [stageRadii, pyRound], stage_radii_ordered 16 (by decide)⟩

/-- C3: every pipeline function, called on a variable-format clip, errors
immediately at its format check - returning an error rather than any graph,
so no debanding stage or filter node is ever constructed - while on a
concrete-format clip the format check raises no error. -/
theorem variable_format_rejected (c d : Clip) (f : VideoFormat)
    (hc : c.format = none) (hd : d.format = some f) :
    vsdeband.mdb_bilateral c 16 (.one 65) (.one 0) [153, 0] 3 none
        = .error "mdb_bilateral: Variable-format clips not supported"
      ∧ vsdeband.pfdeband c 16 (.one 30) (.one 0) [76, 0] (5/2) none default_prefilter
        = .error "pfdeband: Variable-format clips not supported"
      ∧ vsdeband.lfdeband c 30 (.one 80) (.one 0) 2
        = .error "lfdeband: Variable-format clips not supported"
      ∧ vsdeband.guided_deband c none (3/10) .null .GRADIENT (some 0) (.one 0) none none
        = .error "guided_deband: Variable-format clips not supported"
      ∧ debandshit.dumb3kdb c 16 (.one 30) (.one 0) 2 false
        = .error "F3kdb.deband: Variable-format clips not supported"
      ∧ debandshit.f3kbilateral c 16 (.one 65) (.one 0)
        = .error "f3kbilateral: Variable-format clips not supported"
      ∧ debandshit.f3kpf c 16 (.one 30) (.one 0)
        = .error "f3kpf: Variable-format clips not supported"
      ∧ debandshit.lfdeband c 30 (.one 80) (.one 0)
        = .error "lfdeband: Variable-format clips not supported"
      ∧ debandshit.placebo_deband c 16 (.one 4) 1 (.one 6)
        = .error "Placebo.deband: Variable-format clips not supported"
      ∧ check_variable d "guided_deband" = .ok () := by
  refine ⟨?_, ?_, ?_, ?_, ?_, ?_, ?_, ?_, ?_, ?_⟩ <;>
    simp [vsdeband.mdb_bilateral, vsdeband.pfdeband, vsdeband.lfdeband,
      vsdeband.guided_deband, debandshit.dumb3kdb, debandshit.f3kbilateral,
      debandshit.f3kpf, debandshit.lfdeband, debandshit.placebo_deband,
      F3kdb.deband, Placebo.deband, check_variable, hc, hd]

/-- Witness for C3: the variable-format clip `clipVar` is rejected by a
pipeline with a convenience-wrapper signature and the concrete-format clip
`clip8` passes the format check. -/
theorem variable_format_rejected_witness :
    Clip.format clipVar = none ∧ Clip.format clip8 = some fmt420p8
      ∧ debandshit.dumb3kdb clipVar 16 (.one 30) (.one 0) 2 false
        = .error "F3kdb.deband: Variable-format clips not supported"
      ∧ vsdeband.guided_deband clipVar none (3/10) .null .GRADIENT (some 0) (.one 0) none none
        = .error "guided_deband: Variable-format clips not supported"
      ∧ check_variable clip8 "guided_deband" = .ok () := by
  have hmain := variable_format_rejected clipVar clip8 fmt420p8 rfl rfl
  exact ⟨rfl, rfl, hmain.2.2.2.2.1, hmain.2.2.2.1, hmain.2.2.2.2.2.2.2.2.2⟩

/-- `pyCeilDiv h 540` is the exact ceiling of `h / 540`. -/
theorem pyCeilDiv_540_eq_ceil (h : Nat) :
    (pyCeilDiv h 540 : ℤ) = ⌈(h : ℚ) / 540⌉ := by
  have key : 540 * pyCeilDiv h 540 ≤ h + 539 ∧ h + 539 < 540 * pyCeilDiv h 540 + 540 := by
    unfold pyCeilDiv
    omega
  symm
  rw [Int.ceil_eq_iff]
  have k1 : (540 * pyCeilDiv h 540 : ℚ) ≤ (h : ℚ) + 539 := by exact_mod_cast key.1
  have k2 : (h : ℚ) ≤ 540 * pyCeilDiv h 540 := by
    have : h ≤ 540 * pyCeilDiv h 540 := by omega
    exact_mod_cast this
  constructor
  · rw [lt_div_iff₀ (by norm_num : (0 : ℚ) < 540)]
    push_cast
    linarith
  · rw [div_le_iff₀ (by norm_num : (0 : ℚ) < 540)]
    push_cast
    linarith

/-- C5: when the caller does not supply the guided-filter radius
(`radius = None`), the radius resolved for the guided filter defaults to
`ceil(clip.height / 540)`. -/
theorem guided_radius_default (f : VideoFormat) (w h : Nat) (rng : ColorRange) :
    (vsdeband.guided_deband (.source (some f) w h rng) none (3/10) .null .GRADIENT
          (some 0) (.one 0) none none).map guidedRadii
        = .ok [(pyCeilDiv h 540 : Nat)]
      ∧ (pyCeilDiv h 540 : ℤ) = ⌈(h : ℚ) / 540⌉ :=
  ⟨rfl, pyCeilDiv_540_eq_ceil h⟩

/-- C4: in the prefiltered pipeline - named `f3kpf` by the spec and realized
by `pfdeband` (src/vsdeband/funcs.py lines 111-114, the code the claim
cites) - when the chosen prefilter raises on the call passing the
plane-selection argument and the retry without it succeeds, the pipeline
continues with the retry's result: the returned graph debands, limits and
diffs against exactly the clip produced by the retried call. -/
theorem prefilter_fallback_continues (c b : Clip) (f g : VideoFormat) (e : String)
    (pf : Clip → Bool → Except String Clip)
    (hf : c.format = some f) (h1 : pf c true = .error e) (h2 : pf c false = .ok b)
    (hg : b.format = some g) :
    vsdeband.pfdeband c 16 (.one 30) (.one 0) [76, 0] (5/2) none pf
      = .ok (.mergeDiff
          (.limitFilter2 (.f3kdbDeband 16 [30, 30, 30] [0, 0, 0] b) b [76, 0] (some (5/2)) none)
          (.makeDiff c b)) := by
  simp [vsdeband.pfdeband, debanderDeband, hf, h1, h2, hg, normalize_seq,
    normalize_list, to_arr, List.range_succ]

/-- A prefilter that rejects the plane-selection keyword and blurs when
called without it. -/
def pfNoPlanes (c : Clip) (withPlanes : Bool) : Except String Clip :=
  if withPlanes then .error "blur got an unexpected keyword argument planes"
  else .ok (.blurNode 2 c)

/-- Witness for C4: with a prefilter rejecting the planes keyword, the
pipeline returns the graph built from the retry's blur. -/
theorem prefilter_fallback_continues_witness :
    pfNoPlanes clip8 true = .error "blur got an unexpected keyword argument planes"
      ∧ pfNoPlanes clip8 false = .ok (.blurNode 2 clip8)
      ∧ vsdeband.pfdeband clip8 16 (.one 30) (.one 0) [76, 0] (5/2) none pfNoPlanes
        = .ok (.mergeDiff
            (.limitFilter2 (.f3kdbDeband 16 [30, 30, 30] [0, 0, 0] (.blurNode 2 clip8))
              (.blurNode 2 clip8) [76, 0] (some (5/2)) none)
            (.makeDiff clip8 (.blurNode 2 clip8))) :=
  ⟨rfl, rfl,
    prefilter_fallback_continues clip8 (.blurNode 2 clip8) fmt420p8 fmt420p8 _
      pfNoPlanes rfl rfl rfl rfl⟩

/-- C10: the `except Exception` of `pfdeband` catches every exception `e`
raised by the prefilter call with `planes`, the call is retried exactly once
without that argument, and whatever the retry produces determines the
result: an exception `e2` raised by the retry propagates unchanged to the
caller, and a successful retry feeds its clip to the rest of the pipeline. -/
theorem pfdeband_retry_catchall (c b : Clip) (f g : VideoFormat) (e e2 : String)
    (pf : Clip → Bool → Except String Clip)
    (hf : c.format = some f) (h1 : pf c true = .error e) :
    (pf c false = .error e2 →
        vsdeband.pfdeband c 16 (.one 30) (.one 0) [76, 0] (5/2) none pf = .error e2)
      ∧ (pf c false = .ok b → b.format = some g →
          vsdeband.pfdeband c 16 (.one 30) (.one 0) [76, 0] (5/2) none pf
            = .ok (.mergeDiff
                (.limitFilter2 (.f3kdbDeband 16 [30, 30, 30] [0, 0, 0] b) b
                  [76, 0] (some (5/2)) none)
                (.makeDiff c b))) := by
  constructor
  · intro h2
    simp [vsdeband.pfdeband, hf, h1, h2]
  · intro h2 hg
    simp [vsdeband.pfdeband, debanderDeband, hf, h1, h2, hg, normalize_seq,
      normalize_list, to_arr, List.range_succ]

/-- A prefilter that raises whether or not the planes keyword is passed,
with distinguishable messages. -/
def pfAlwaysFails (_c : Clip) (withPlanes : Bool) : Except String Clip :=
  if withPlanes then .error "TypeError in prefilter"
  else .error "RuntimeError in prefilter"

/-- Witness for C10: both calls fail; the pipeline reports exactly the
retry's error message, not the first call's. -/
theorem pfdeband_retry_catchall_witness :
    pfAlwaysFails clip8 true = .error "TypeError in prefilter"
      ∧ pfAlwaysFails clip8 false = .error "RuntimeError in prefilter"
      ∧ vsdeband.pfdeband clip8 16 (.one 30) (.one 0) [76, 0] (5/2) none pfAlwaysFails
        = .error "RuntimeError in prefilter" :=
  ⟨rfl, rfl,
    (pfdeband_retry_catchall clip8 clip8 fmt420p8 fmt420p8 _ _ pfAlwaysFails
      rfl rfl).1 rfl⟩

/-- C1 (amended): `mdb_bilateral`, `f3kbilateral` and `lfdeband` promote the
clip to the 16-bit working precision before every debanding stage and return
a clip reporting the input's bit depth, for every input format; the
prefiltered pipelines `f3kpf` and `pfdeband` perform no bit-depth
normalization at all - their single debanding stage runs at the input's own
bit depth - though their result still reports the input bit depth. -/
theorem bitdepth_roundtrip_amended (f : VideoFormat) (w h : Nat) (rng : ColorRange) :
    (vsdeband.mdb_bilateral (.source (some f) w h rng) 16 (.one 65) (.one 0) [153, 0] 3 none).map
        (fun o => (o.bits, allBits16 o)) = .ok (some f.bits_per_sample, true)
      ∧ (debandshit.f3kbilateral (.source (some f) w h rng) 16 (.one 65) (.one 0)).map
        (fun o => (o.bits, allBits16 o)) = .ok (some f.bits_per_sample, true)
      ∧ (debandshit.lfdeband (.source (some f) w h rng) 30 (.one 80) (.one 0)).map
        (fun o => (o.bits, allBits16 o)) = .ok (some f.bits_per_sample, true)
      ∧ (vsdeband.pfdeband (.source (some f) w h rng) 16 (.one 30) (.one 0) [76, 0] (5/2) none
          default_prefilter).map (fun o => (o.bits, debandInputBits o))
        = .ok (some f.bits_per_sample, [some f.bits_per_sample])
      ∧ (debandshit.f3kpf (.source (some f) w h rng) 16 (.one 30) (.one 0)).map
        (fun o => (o.bits, debandInputBits o))
        = .ok (some f.bits_per_sample, [some f.bits_per_sample]) := by
  by_cases hb : f.bits_per_sample = 16
  · simp [vsdeband.mdb_bilateral, debandshit.f3kbilateral, debandshit.lfdeband,
      vsdeband.pfdeband, debandshit.f3kpf, debanderDeband, F3kdb.deband, mkF3kdb,
      default_prefilter, expect_bits, depth, Clip.bits, Clip.format, allBits16,
      debandInputBits, PySeq.truthy, Except.map, hb]
  · have hb2 : (16 : Nat) ≠ f.bits_per_sample := fun hx => hb hx.symm
    simp [vsdeband.mdb_bilateral, debandshit.f3kbilateral, debandshit.lfdeband,
      vsdeband.pfdeband, debandshit.f3kpf, debanderDeband, F3kdb.deband, mkF3kdb,
      default_prefilter, expect_bits, depth, Clip.bits, Clip.format, allBits16,
      debandInputBits, PySeq.truthy, Except.map, hb, hb2]

/-- `to_arr` on a plain list value. -/
theorem to_arr_many {α : Type} (l : List α) : to_arr (PySeq.many l) = l := rfl

/-- C8: in the three-stage pipelines `mdb_bilateral` and `f3kbilateral`, the
first debanding pass uses, on every plane, the caller's threshold halved
with a minimum of 1 (`max(1, th // 2)`), while the second and third passes
use the caller's per-plane thresholds unchanged. -/
theorem first_pass_halved_thresholds (f : VideoFormat) (w h : Nat) (rng : ColorRange)
    (radius : Int) (thr : PySeq Int) (ht : to_arr thr ≠ []) :
    (vsdeband.mdb_bilateral (.source (some f) w h rng) radius thr (.one 0) [153, 0] 3 none).map
        stageThrs
      = .ok [((stageRadii radius).1, (normalize_seq thr 3).map fun th => max 1 (Int.fdiv th 2)),
             ((stageRadii radius).2.1, normalize_seq thr 3),
             ((stageRadii radius).2.2, normalize_seq thr 3)]
    ∧ (debandshit.f3kbilateral (.source (some f) w h rng) radius thr (.one 0)).map stageThrs
      = .ok [((stageRadii radius).1, (normalize_seq thr 3).map fun th => max 1 (Int.fdiv th 2)),
             ((stageRadii radius).2.1, normalize_seq thr 3),
             ((stageRadii radius).2.2, normalize_seq thr 3)] := by
  have hcomm := normalize_list_map (fun th => max 1 (Int.fdiv th 2)) (to_arr thr) ht 3
  refine ⟨?_, ?_⟩
  · by_cases hb : f.bits_per_sample = 16
    · simp [vsdeband.mdb_bilateral, debanderDeband, expect_bits, depth, Clip.bits,
        Clip.format, stageThrs, PySeq.truthy, Except.map, normalize_seq, to_arr_many, hcomm, hb]
    · have hb2 : (16 : Nat) ≠ f.bits_per_sample := fun hx => hb hx.symm
      simp [vsdeband.mdb_bilateral, debanderDeband, expect_bits, depth, Clip.bits,
        Clip.format, stageThrs, PySeq.truthy, Except.map, normalize_seq, to_arr_many, hcomm, hb, hb2]
  · by_cases hb : f.bits_per_sample = 16
    · simp [debandshit.f3kbilateral, F3kdb.deband, mkF3kdb, expect_bits, depth, Clip.bits,
        Clip.format, stageThrs, PySeq.truthy, Except.map, normalize_seq, normalize_list,
        List.range_succ, hb]
    · have hb2 : (16 : Nat) ≠ f.bits_per_sample := fun hx => hb hx.symm
      simp [debandshit.f3kbilateral, F3kdb.deband, mkF3kdb, expect_bits, depth, Clip.bits,
        Clip.format, stageThrs, PySeq.truthy, Except.map, normalize_seq, normalize_list,
        List.range_succ, hb, hb2]

/-- Witness for C8 at the default parameters on `clip8`: the caller's
threshold 65 normalizes to `[65, 65, 65]` per plane and the first pass runs
with `[32, 32, 32]`. -/
theorem first_pass_halved_thresholds_witness :
    to_arr (PySeq.one (65 : Int)) ≠ []
      ∧ normalize_seq (PySeq.one (65 : Int)) 3 = [65, 65, 65]
      ∧ (normalize_seq (PySeq.one (65 : Int)) 3).map (fun th => max 1 (Int.fdiv th 2))
        = [32, 32, 32]
      ∧ (vsdeband.mdb_bilateral clip8 16 (.one 65) (.one 0) [153, 0] 3 none).map stageThrs
        = .ok [((stageRadii 16).1, (normalize_seq (PySeq.one (65 : Int)) 3).map
                  fun th => max 1 (Int.fdiv th 2)),
               ((stageRadii 16).2.1, normalize_seq (PySeq.one (65 : Int)) 3),
               ((stageRadii 16).2.2, normalize_seq (PySeq.one (65 : Int)) 3)]
      ∧ (debandshit.f3kbilateral clip8 16 (.one 65) (.one 0)).map stageThrs
        = .ok [((stageRadii 16).1, (normalize_seq (PySeq.one (65 : Int)) 3).map
                  fun th => max 1 (Int.fdiv th 2)),
               ((stageRadii 16).2.1, normalize_seq (PySeq.one (65 : Int)) 3),
               ((stageRadii 16).2.2, normalize_seq (PySeq.one (65 : Int)) 3)] :=
  ⟨by decide, by decide, by decide,
    (first_pass_halved_thresholds fmt420p8 1920 1080 .limited 16 (.one 65) (by decide)).1,
    (first_pass_halved_thresholds fmt420p8 1920 1080 .limited 16 (.one 65) (by decide)).2⟩

/-- `to_arr` on a scalar value. -/
theorem to_arr_one {α : Type} (a : α) : to_arr (PySeq.one a) = [a] := rfl

/-- C6 (amended): in `guided_deband`, whenever the mask radius is nonzero
the range mask (expand minus inpand) is cleaned with the three fixed
smoothing passes and used to selectively merge the filtered and original
clips, but it is binarized only when the threshold's maximum is positive.
With the binarize threshold not supplied it keeps its declared default 0,
so nothing is computed from the bit depth or color range and no
binarization happens; the threshold is computed from the clip's sample type
and color range only when the caller explicitly passes `None`, which
succeeds for float-sample clips (1.5/255 full range, [1.5/219, 1.5/224]
limited) and raises for integer-sample clips (the `scale_value` call of
line 194 passes the `scale_value` function itself as the output depth). -/
theorem guided_mask_pipeline_amended (f : VideoFormat) (w h : Nat) (rng : ColorRange)
    (r : Int) (hr : r ≠ 0) (hn : f.num_planes = 3) :
    vsdeband.guided_deband (.source (some f) w h rng) none (3/10) .null .GRADIENT (some r)
        (.one 0) none none
      = .ok (.maskedMerge
          (guided_filter (.source (some f) w h rng) none (3/10) .GRADIENT [0, 1, 2])
          (.source (some f) w h rng)
          (.removegrainN .MIN_SHARP (.removegrainN .SQUARE_BLUR (.removegrainN .OPP_CLIP_AVG_FAST
            (.exprNode (expand (.source (some f) w h rng) r) (inpand (.source (some f) w h rng) r)
              "x y -" [0, 1, 2]))))
          [0, 1, 2])
    ∧ (f.sample_type = .float →
        vsdeband.guided_deband (.source (some f) w h rng) none (3/10) .null .GRADIENT (some r)
            .null none none
          = .ok (.maskedMerge
              (guided_filter (.source (some f) w h rng) none (3/10) .GRADIENT [0, 1, 2])
              (.source (some f) w h rng)
              (.removegrainN .MIN_SHARP (.removegrainN .SQUARE_BLUR (.removegrainN .OPP_CLIP_AVG_FAST
                (.binarizeN
                  (normalize_seq (if rng.is_full then PySeq.one (3/2/255)
                    else PySeq.many [3/2/219, 3/2/224]) 3)
                  [0, 1, 2]
                  (.exprNode (expand (.source (some f) w h rng) r)
                    (inpand (.source (some f) w h rng) r) "x y -" [0, 1, 2])))))
              [0, 1, 2]))
    ∧ (f.sample_type = .integer →
        vsdeband.guided_deband (.source (some f) w h rng) none (3/10) .null .GRADIENT (some r)
            .null none none
          = .error "guided_deband: scale_value received the scale_value function as its output depth") := by
  refine ⟨?_, ?_, ?_⟩
  · simp [vsdeband.guided_deband, Clip.format, normalize_planes, hn, hr, PySeq.truthy,
      normalize_seq, normalize_list, List.range_succ, listMax, expand, inpand, removegrain,
      to_arr_one, Clip.range]
  · intro hft
    cases rng <;>
      simp [vsdeband.guided_deband, Clip.format, normalize_planes, hn, hr, hft, PySeq.truthy,
        normalize_seq, normalize_list, List.range_succ, listMax, ColorRange.is_full,
        expand, inpand, removegrain, to_arr_one, to_arr_many, Clip.range]
  · intro hft
    simp [vsdeband.guided_deband, Clip.format, hft]

/-- Witness for C6 on a concrete full-range float clip with mask radius 1:
passing `None` yields a binarized mask, the default 0 yields none. -/
theorem guided_mask_pipeline_amended_witness :
    (1 : Int) ≠ 0 ∧ fmt444ps.num_planes = 3
      ∧ (vsdeband.guided_deband (.source (some fmt444ps) 1920 1080 .full) none (3/10) .null
          .GRADIENT (some 1) .null none none).map hasBinarize = .ok true
      ∧ (vsdeband.guided_deband (.source (some fmt444ps) 1920 1080 .full) none (3/10) .null
          .GRADIENT (some 1) (.one 0) none none).map hasBinarize = .ok false := by
  refine ⟨by decide, by decide, ?_, ?_⟩
  · rw [(guided_mask_pipeline_amended fmt444ps 1920 1080 .full 1 (by decide) (by decide)).2.1 rfl]
    rfl
  · rw [(guided_mask_pipeline_amended fmt444ps 1920 1080 .full 1 (by decide) (by decide)).1]
    rfl
